import Mathlib

/-!
Shallow embedding of the SQL chat pipeline in `src/app.py`.

The Python program translates a natural-language question into a SQL query
via a text-completion service, validates it against an allow-list of leading
keywords, executes it on a database connection, and asks the completion
service to phrase the result as a natural-language answer.

External collaborators are modelled as explicit values:
the database connection as a structure with a `run` operation and a schema
snapshot (an exception raised by the collaborator is an `Except.error`
carrying the Python `str(e)` text), and the completion service as a
function from the rendered prompt to `Except String String`.

Each pipeline function additionally returns the list of collaborator calls
it performs (schema fetch, completion call, `db.run`), so that statements of
the form "no database call occurs" are about the returned trace.

Python string primitives (`strip`, `upper`, `lower`, `startswith`, `in`)
are modelled character-wise on `String.data`.
-/

namespace SqlChat

/-- Character-list model of Python substring containment (`pat in s`). -/
def subList (pat : List Char) : List Char → Bool
  | [] => pat.isEmpty
  | c :: t => pat.isPrefixOf (c :: t) || subList pat t

/-- Python `pat in s` on strings. -/
def strContains (s pat : String) : Bool :=
  subList pat.data s.data

/-- Python `s.lower()` (ASCII case mapping). -/
def strLower (s : String) : String :=
  ⟨s.data.map Char.toLower⟩

/-- Python `s.upper()` (ASCII case mapping). -/
def strUpper (s : String) : String :=
  ⟨s.data.map Char.toUpper⟩

/-- Python `s.strip()`: remove leading and trailing whitespace. -/
def strTrim (s : String) : String :=
  ⟨((s.data.dropWhile Char.isWhitespace).reverse.dropWhile Char.isWhitespace).reverse⟩

/-- Python `s.startswith(pat)`. -/
def strStartsWith (s pat : String) : Bool :=
  pat.data.isPrefixOf s.data

/-- A turn of the conversation history (`HumanMessage` / `AIMessage`). -/
inductive ChatMessage where
  | human (content : String) : ChatMessage
  | ai (content : String) : ChatMessage
deriving DecidableEq

/-- A collaborator call performed by the pipeline. -/
inductive Event where
  | schemaFetch : Event
  | llmCall (prompt : String) : Event
  | dbRun (query : String) : Event
deriving DecidableEq

/-- The database connection: `run` executes a statement (raising is
`Except.error` with the exception text), `get_table_info` is the schema
snapshot the connection reports (it may also raise). -/
structure DB where
  run : String → Except String String
  get_table_info : Except String String

/-- The allow-list of leading SQL keywords from `validate_sql_query`. -/
def valid_keywords : List String :=
  ["SELECT", "INSERT", "UPDATE", "DELETE", "CREATE", "DROP", "ALTER", "WITH"]

/-- Embedding of `validate_sql_query` (src/app.py lines 16-22): strip the
query, succeed with the stripped text when its uppercased form starts with
an allow-listed keyword, otherwise raise `ValueError` with the message
`Invalid SQL query generated: ...`. -/
def validate_sql_query (query : String) : Except String String :=
  if valid_keywords.any (fun keyword => strStartsWith (strUpper (strTrim query)) keyword) then
    Except.ok (strTrim query)
  else
    Except.error ("Invalid SQL query generated: " ++ strTrim query)

/-- Embedding of `execute_sql_and_get_response` (src/app.py lines 25-33):
validate, then run on the connection; any exception is caught and turned
into the string `Error executing SQL query: ...`. The second component is
the trace of database calls performed. -/
def execute_sql_and_get_response (db : DB) (query : String) : String × List Event :=
  match validate_sql_query query with
  | Except.error e => ("Error executing SQL query: " ++ e, [])
  | Except.ok q =>
    match db.run q with
    | Except.ok response => (response, [Event.dbRun q])
    | Except.error e => ("Error executing SQL query: " ++ e, [Event.dbRun q])

/-- The rendered query-synthesis prompt of `get_sql_chain`
(src/app.py lines 37-49): the template with `schema` and `question`
interpolated. -/
def sql_chain_prompt (schema question : String) : String :=
  "\n    Based on the provided table schema and the user's question, generate a valid SQL query.\nFollow these rules for specific question types:\n1. If the question is about the **number of columns**, use INFORMATION_SCHEMA to get the count of columns in the specified table.\n2. If the question is about **column names**, use INFORMATION_SCHEMA to retrieve the column names of the specified table.\n3. If the question is about the **number of records (rows)**, generate a query using COUNT(*) to count the rows in the table.\n4. For general **schema-related questions**, provide queries to fetch metadata about tables, columns, or database structure.\n5. For all other data-specific questions, generate a query that retrieves the required data directly from the table.\nEnsure the SQL query directly answers the user's question without any additional text or explanation.\nSchema: "
    ++ schema ++ "\nQuestion: " ++ question ++ "\nSQL Query:\n    "

/-- The rendered answer-synthesis prompt of `get_response`
(src/app.py lines 74-84): the template with `schema`, `question`, `query`
and `response` interpolated. -/
def answer_chain_prompt (schema question query response : String) : String :=
  "\nYou are an exceptional assistant known for delivering accurate and precise answers. \nBased on the provided schema, the user's question, the SQL query, and the \"SQL response\", generate a accurate straight forward natural language answer.\nkindly generate the answer that exactly reflects the SQL response. \nSchema: "
    ++ schema ++ "\nQuestion: " ++ question ++ "\nSQL Query: " ++ query
    ++ "\nSQL Response: " ++ response ++ "\n\nAnswer:\n"

/-- The acknowledgement phrases of `get_response` (src/app.py line 69). -/
def praising_words : List String :=
  ["ok", "thank you", "thanks", "great", "awesome", "nice", "well done", "cool"]

/-- The fixed courtesy reply of `get_response` (src/app.py line 72),
reproduced byte-for-byte from the source file. -/
def courtesy_reply : String :=
  "You're welcome! I'm here to help. ðŸ˜Š"

/-- Embedding of `get_response` (src/app.py lines 68-114). The chain built
by the Python code performs, in order: the schema fetch inside
`get_sql_chain`, the query-synthesis completion call, the schema fetch of
the outer `assign`, the executor (validation plus `db.run`), and the
answer-synthesis completion call. Exceptions of the completion service or
the schema fetch are caught by the surrounding `try` and become the string
`Error in chain invocation: ...`; the executor catches its own exceptions.
`chat_history` is supplied to `chain.invoke` by the source but no template
interpolates it. The second component is the trace of collaborator calls. -/
def get_response (user_query : String) (db : DB)
    (llm : String → Except String String) (chat_history : List ChatMessage) :
    String × List Event :=
  if praising_words.any (fun word => strContains (strLower user_query) word) then
    (courtesy_reply, [])
  else
    match db.get_table_info with
    | Except.error e => ("Error in chain invocation: " ++ e, [Event.schemaFetch])
    | Except.ok schema1 =>
      match llm (sql_chain_prompt schema1 user_query) with
      | Except.error e =>
        ("Error in chain invocation: " ++ e,
          [Event.schemaFetch, Event.llmCall (sql_chain_prompt schema1 user_query)])
      | Except.ok query =>
        match db.get_table_info with
        | Except.error e =>
          ("Error in chain invocation: " ++ e,
            [Event.schemaFetch, Event.llmCall (sql_chain_prompt schema1 user_query),
              Event.schemaFetch])
        | Except.ok schema2 =>
          let r := execute_sql_and_get_response db query
          match llm (answer_chain_prompt schema2 user_query query r.1) with
          | Except.error e =>
            ("Error in chain invocation: " ++ e,
              [Event.schemaFetch, Event.llmCall (sql_chain_prompt schema1 user_query),
                Event.schemaFetch] ++ r.2
                ++ [Event.llmCall (answer_chain_prompt schema2 user_query query r.1)])
          | Except.ok result =>
            (result,
              [Event.schemaFetch, Event.llmCall (sql_chain_prompt schema1 user_query),
                Event.schemaFetch] ++ r.2
                ++ [Event.llmCall (answer_chain_prompt schema2 user_query query r.1)])

/-- The input dictionary passed to `chain.invoke` in `get_response`
(src/app.py lines 105-108): the question together with the chat history. -/
structure ChainInput where
  question : String
  chat_history : List ChatMessage

/-- The query-synthesis prompt rendered for a given invoke input: the
template of `get_sql_chain` only interpolates `schema` and `question`. -/
def sql_prompt_of_invoke (schema : String) (input : ChainInput) : String :=
  sql_chain_prompt schema input.question

/-- Success of a validation result (no exception raised). -/
def succeeds (r : Except String String) : Bool :=
  match r with
  | Except.ok _ => true
  | Except.error _ => false

/-- Spec-side reading of the validator condition: the trimmed text,
compared case-insensitively (uppercasing both sides), starts with one of
the eight allow-listed keywords. -/
def startsWithAllowedKeyword (s : String) : Bool :=
  valid_keywords.any (fun keyword => strStartsWith (strUpper (strTrim s)) (strUpper keyword))

theorem isPrefixOf_self_char (l : List Char) : l.isPrefixOf l = true := by
  induction l with
  | nil => rfl
  | cons c t ih => simp [List.isPrefixOf, ih]

theorem subList_append_self (p : List Char) : ∀ a : List Char, subList p (a ++ p) = true := by
  intro a
  induction a with
  | nil =>
    cases p with
    | nil => rfl
    | cons c t => simp [subList, isPrefixOf_self_char]
  | cons x a ih => simp [subList, ih]

theorem strContains_append_right (a e : String) : strContains (a ++ e) e = true := by
  simp [strContains, String.data_append, subList_append_self]

theorem allowed_cond_eq (s : String) :
    startsWithAllowedKeyword s
      = valid_keywords.any (fun keyword => strStartsWith (strUpper (strTrim s)) keyword) := by
  have h1 : strUpper "SELECT" = "SELECT" := by decide
  have h2 : strUpper "INSERT" = "INSERT" := by decide
  have h3 : strUpper "UPDATE" = "UPDATE" := by decide
  have h4 : strUpper "DELETE" = "DELETE" := by decide
  have h5 : strUpper "CREATE" = "CREATE" := by decide
  have h6 : strUpper "DROP" = "DROP" := by decide
  have h7 : strUpper "ALTER" = "ALTER" := by decide
  have h8 : strUpper "WITH" = "WITH" := by decide
  simp [startsWithAllowedKeyword, valid_keywords, h1, h2, h3, h4, h5, h6, h7, h8]

/-- C1: `validate_sql_query` succeeds exactly when the trimmed text,
compared case-insensitively, starts with one of the eight allow-listed
keywords; when it does not, validation fails with the `ValueError` message
`Invalid SQL query generated:` followed by the trimmed text. -/
theorem validate_allowlist_iff (s : String) :
    succeeds (validate_sql_query s) = startsWithAllowedKeyword s ∧
      (startsWithAllowedKeyword s = false →
        validate_sql_query s = Except.error ("Invalid SQL query generated: " ++ strTrim s)) := by
  rw [allowed_cond_eq]
  cases h : valid_keywords.any (fun keyword => strStartsWith (strUpper (strTrim s)) keyword) with
  | false => simp [validate_sql_query, succeeds, h]
  | true => simp [validate_sql_query, succeeds, h]

/-- Witness for C1: a completion with leading prose is rejected with the
`InvalidQuery` error message. -/
theorem validate_allowlist_iff_witness :
    validate_sql_query "Here is the query: SELECT * FROM users"
      = Except.error ("Invalid SQL query generated: "
          ++ strTrim "Here is the query: SELECT * FROM users") :=
  (validate_allowlist_iff "Here is the query: SELECT * FROM users").2 (by decide)

/-- C8: when the trimmed text starts with an allow-listed keyword,
`validate_sql_query` returns exactly the trimmed string. -/
theorem validate_returns_trimmed (s : String) (h : startsWithAllowedKeyword s = true) :
    validate_sql_query s = Except.ok (strTrim s) := by
  rw [allowed_cond_eq] at h
  simp [validate_sql_query, h]

/-- Witness for C8: a lowercase query with surrounding whitespace validates
to its trimmed text. -/
theorem validate_returns_trimmed_witness :
    validate_sql_query "   select id from t  " = Except.ok (strTrim "   select id from t  ") :=
  validate_returns_trimmed "   select id from t  " (by decide)

/-- C2: when the validated query is run and the connection raises,
`execute_sql_and_get_response` returns (never raises) the failure string
`Error executing SQL query:` followed by the stringified error, which
contains the error text. -/
theorem execute_captures_db_error (db : DB) (q q' e : String)
    (hv : validate_sql_query q = Except.ok q') (hr : db.run q' = Except.error e) :
    execute_sql_and_get_response db q
        = ("Error executing SQL query: " ++ e, [Event.dbRun q']) ∧
      strContains (execute_sql_and_get_response db q).1 e = true := by
  have h1 : execute_sql_and_get_response db q
      = ("Error executing SQL query: " ++ e, [Event.dbRun q']) := by
    simp [execute_sql_and_get_response, hv, hr]
  refine ⟨h1, ?_⟩
  rw [h1]
  exact strContains_append_right _ _

/-- Witness for C2: running `DROP TABLE x` on a connection that raises
`connection lost` yields the failure string, not an exception. -/
theorem execute_captures_db_error_witness :
    execute_sql_and_get_response
          ⟨fun _ => Except.error "connection lost", Except.ok "users"⟩ "DROP TABLE x"
        = ("Error executing SQL query: " ++ "connection lost", [Event.dbRun "DROP TABLE x"]) ∧
      strContains (execute_sql_and_get_response
          ⟨fun _ => Except.error "connection lost", Except.ok "users"⟩ "DROP TABLE x").1
          "connection lost" = true :=
  execute_captures_db_error
    ⟨fun _ => Except.error "connection lost", Except.ok "users"⟩
    "DROP TABLE x" "DROP TABLE x" "connection lost" (by rfl) (by rfl)

/-- C3: when validation fails, `execute_sql_and_get_response` performs no
database call (its trace is empty, so no `dbRun` event occurs) and returns
the failure string carrying the validator's error message. -/
theorem execute_no_run_on_invalid (db : DB) (q e : String)
    (hv : validate_sql_query q = Except.error e) :
    execute_sql_and_get_response db q = ("Error executing SQL query: " ++ e, []) ∧
      ∀ q', Event.dbRun q' ∉ (execute_sql_and_get_response db q).2 := by
  have h1 : execute_sql_and_get_response db q = ("Error executing SQL query: " ++ e, []) := by
    simp [execute_sql_and_get_response, hv]
  refine ⟨h1, ?_⟩
  intro q'
  rw [h1]
  simp

/-- Witness for C3: the non-SQL text `hello` is rejected and no database
call happens. -/
theorem execute_no_run_on_invalid_witness :
    execute_sql_and_get_response ⟨fun _ => Except.ok "rows", Except.ok "schema"⟩ "hello"
      = ("Error executing SQL query: " ++ "Invalid SQL query generated: hello", []) :=
  (execute_no_run_on_invalid ⟨fun _ => Except.ok "rows", Except.ok "schema"⟩
    "hello" "Invalid SQL query generated: hello" (by rfl)).1

/-- C10: when validation succeeds and the connection returns a payload,
`execute_sql_and_get_response` returns exactly that payload, unmodified. -/
theorem execute_returns_payload_verbatim (db : DB) (q q' r : String)
    (hv : validate_sql_query q = Except.ok q') (hr : db.run q' = Except.ok r) :
    execute_sql_and_get_response db q = (r, [Event.dbRun q']) := by
  simp [execute_sql_and_get_response, hv, hr]

/-- Witness for C10: a successful run's payload is passed through verbatim. -/
theorem execute_returns_payload_verbatim_witness :
    execute_sql_and_get_response
        ⟨fun _ => Except.ok "[(3,)]", Except.ok "schema"⟩ "SELECT * FROM users"
      = ("[(3,)]", [Event.dbRun "SELECT * FROM users"]) :=
  execute_returns_payload_verbatim ⟨fun _ => Except.ok "[(3,)]", Except.ok "schema"⟩
    "SELECT * FROM users" "SELECT * FROM users" "[(3,)]" (by rfl) (by rfl)

/-- C4: when the lowercased question contains one of the fixed
acknowledgement phrases as a substring, `get_response` returns the fixed
courtesy reply with an empty trace: no completion-service call and no
database call occurs. -/
theorem courtesy_short_circuit (q : String) (db : DB)
    (llm : String → Except String String) (h : List ChatMessage)
    (hc : (praising_words.any fun word => strContains (strLower q) word) = true) :
    get_response q db llm h = (courtesy_reply, []) := by
  simp [get_response, hc]

/-- Witness for C4: the question `thanks!` gets the courtesy reply with no
collaborator call. -/
theorem courtesy_short_circuit_witness :
    get_response "thanks!" ⟨fun _ => Except.ok "rows", Except.ok "schema"⟩
        (fun _ => Except.ok "answer") []
      = (courtesy_reply, []) :=
  courtesy_short_circuit "thanks!" ⟨fun _ => Except.ok "rows", Except.ok "schema"⟩
    (fun _ => Except.ok "answer") [] (by decide)

/-- C5: for a non-courtesy question, once the schema fetch and the query
synthesis succeed, the answer-synthesis completion call is always in the
trace — whatever the executor's result (in particular a failure-tagged
one) — with the executor's result text in the prompt's response slot. -/
theorem answer_synth_always_called (q : String) (db : DB)
    (llm : String → Except String String) (h : List ChatMessage) (schema qy : String)
    (hnc : (praising_words.any fun word => strContains (strLower q) word) = false)
    (hs : db.get_table_info = Except.ok schema)
    (hq : llm (sql_chain_prompt schema q) = Except.ok qy) :
    Event.llmCall
        (answer_chain_prompt schema q qy (execute_sql_and_get_response db qy).1)
      ∈ (get_response q db llm h).2 := by
  cases hl : llm (answer_chain_prompt schema q qy (execute_sql_and_get_response db qy).1) with
  | ok result => simp [get_response, hnc, hs, hq, hl]
  | error e => simp [get_response, hnc, hs, hq, hl]

/-- Witness for C5: with a connection that raises on every run, the answer
synthesizer is still invoked, with the failure text in its prompt. -/
theorem answer_synth_always_called_witness :
    Event.llmCall
        (answer_chain_prompt "users(id, name)" "how many users are there?"
          "SELECT COUNT(*) FROM users"
          (execute_sql_and_get_response
            ⟨fun _ => Except.error "table missing", Except.ok "users(id, name)"⟩
            "SELECT COUNT(*) FROM users").1)
      ∈ (get_response "how many users are there?"
          ⟨fun _ => Except.error "table missing", Except.ok "users(id, name)"⟩
          (fun p =>
            if p = sql_chain_prompt "users(id, name)" "how many users are there?" then
              Except.ok "SELECT COUNT(*) FROM users"
            else
              Except.ok "done")
          []).2 :=
  answer_synth_always_called "how many users are there?"
    ⟨fun _ => Except.error "table missing", Except.ok "users(id, name)"⟩
    (fun p =>
      if p = sql_chain_prompt "users(id, name)" "how many users are there?" then
        Except.ok "SELECT COUNT(*) FROM users"
      else
        Except.ok "done")
    [] "users(id, name)" "SELECT COUNT(*) FROM users"
    (by decide) (by rfl) (by simp)

/-- C6: for a non-courtesy question, when query synthesis yields `qy`, the
executor yields `r`, and the answer synthesis succeeds, the answer
synthesizer is invoked with exactly `qy` and `r`, and `get_response`
returns its output unchanged. -/
theorem answer_synth_exact_args (q : String) (db : DB)
    (llm : String → Except String String) (h : List ChatMessage)
    (schema qy r ans : String)
    (hnc : (praising_words.any fun word => strContains (strLower q) word) = false)
    (hs : db.get_table_info = Except.ok schema)
    (hq : llm (sql_chain_prompt schema q) = Except.ok qy)
    (hr : (execute_sql_and_get_response db qy).1 = r)
    (ha : llm (answer_chain_prompt schema q qy r) = Except.ok ans) :
    (get_response q db llm h).1 = ans ∧
      Event.llmCall (answer_chain_prompt schema q qy r) ∈ (get_response q db llm h).2 := by
  constructor
  · simp [get_response, hnc, hs, hq, hr, ha]
  · simp [get_response, hnc, hs, hq, hr, ha]

/-- Witness for C6: the round-trip scenario with the query
`SELECT COUNT(*) FROM users` and the result `42`; the pipeline returns the
answer synthesizer's output unchanged. -/
theorem answer_synth_exact_args_witness :
    (get_response "how many users are there?"
        ⟨fun _ => Except.ok "42", Except.ok "users(id, name)"⟩
        (fun p =>
          if p = sql_chain_prompt "users(id, name)" "how many users are there?" then
            Except.ok "SELECT COUNT(*) FROM users"
          else
            Except.ok "There are 42 users.")
        []).1 = "There are 42 users." ∧
      Event.llmCall
          (answer_chain_prompt "users(id, name)" "how many users are there?"
            "SELECT COUNT(*) FROM users" "42")
        ∈ (get_response "how many users are there?"
            ⟨fun _ => Except.ok "42", Except.ok "users(id, name)"⟩
            (fun p =>
              if p = sql_chain_prompt "users(id, name)" "how many users are there?" then
                Except.ok "SELECT COUNT(*) FROM users"
              else
                Except.ok "There are 42 users.")
            []).2 :=
  answer_synth_exact_args "how many users are there?"
    ⟨fun _ => Except.ok "42", Except.ok "users(id, name)"⟩
    (fun p =>
      if p = sql_chain_prompt "users(id, name)" "how many users are there?" then
        Except.ok "SELECT COUNT(*) FROM users"
      else
        Except.ok "There are 42 users.")
    [] "users(id, name)" "SELECT COUNT(*) FROM users" "42" "There are 42 users."
    (by decide) (by rfl) (by simp) (by rfl)
    (by beta_reduce; rw [if_neg (by decide)])

/-- C7: for a non-courtesy question, when either completion call (query
synthesis or answer synthesis) raises, `get_response` returns the string
`Error in chain invocation:` followed by the error text — which contains
the error text — instead of propagating the exception. -/
theorem completion_error_to_string (q : String) (db : DB)
    (llm : String → Except String String) (h : List ChatMessage) (schema e : String)
    (hnc : (praising_words.any fun word => strContains (strLower q) word) = false)
    (hs : db.get_table_info = Except.ok schema)
    (he : llm (sql_chain_prompt schema q) = Except.error e ∨
      ∃ qy, llm (sql_chain_prompt schema q) = Except.ok qy ∧
        llm (answer_chain_prompt schema q qy (execute_sql_and_get_response db qy).1)
          = Except.error e) :
    (get_response q db llm h).1 = "Error in chain invocation: " ++ e ∧
      strContains (get_response q db llm h).1 e = true := by
  have h1 : (get_response q db llm h).1 = "Error in chain invocation: " ++ e := by
    rcases he with hq | ⟨qy, hq, ha⟩
    · simp [get_response, hnc, hs, hq]
    · simp [get_response, hnc, hs, hq, ha]
  refine ⟨h1, ?_⟩
  rw [h1]
  exact strContains_append_right _ _

/-- Witness for C7: a completion service that raises `service down` during
query synthesis surfaces as an error string containing that text. -/
theorem completion_error_to_string_witness :
    (get_response "how many users are there?"
          ⟨fun _ => Except.ok "rows", Except.ok "schema"⟩
          (fun _ => Except.error "service down") []).1
        = "Error in chain invocation: " ++ "service down" ∧
      strContains (get_response "how many users are there?"
          ⟨fun _ => Except.ok "rows", Except.ok "schema"⟩
          (fun _ => Except.error "service down") []).1 "service down" = true :=
  completion_error_to_string "how many users are there?"
    ⟨fun _ => Except.ok "rows", Except.ok "schema"⟩
    (fun _ => Except.error "service down") [] "schema" "service down"
    (by decide) (by rfl) (Or.inl (by rfl))

/-- C9: the rendered query-synthesis prompt does not depend on the
conversation history supplied to the chain invoke, and the whole pipeline
result (reply and trace) is identical for any two histories. -/
theorem query_prompt_history_free (schema q : String) (db : DB)
    (llm : String → Except String String) (h1 h2 : List ChatMessage) :
    sql_prompt_of_invoke schema ⟨q, h1⟩ = sql_prompt_of_invoke schema ⟨q, h2⟩ ∧
      get_response q db llm h1 = get_response q db llm h2 :=
  ⟨rfl, rfl⟩

end SqlChat
